import Mathlib

/-!
# NoCorn extension — session-lifecycle and point-integrity core, shallow embedding

Definitions translated from the repository's JavaScript sources:
* `scripts/blocked.js` — `NoCornPopup` (local session lifecycle, emergency disable)
* `background.js` — `NoCornBackground` (periodic tick, natural completion, blocking status)
* `src/security/SupabaseSecuritySystem.js` — validation, rate limiting, point policy,
  `SimpleBlockchain` (hash-chain integrity log)
* unnamed secure popup (`SecureNoCornPopup`) — emergency-disable reason guard

Times are milliseconds since epoch as `Nat`; scores are `Nat` (the code clamps the
only decrement at 0 via `Math.max(0, …)`, which truncated `Nat` subtraction models
exactly).  JavaScript float multipliers 1.0 / 0.8 / 0.6 / 0.4 are modelled as exact
tenths (the bases in play are multiples of 5, where the float and exact results agree).
-/

namespace NoCorn

/-- A block session as created by `NoCornPopup.startBlockSession` (blocked.js):
`{ startTime, endTime, duration, blockedSites, emergencyAttempts: 0 }`.
The `lastDailyBonus` field is absent at creation in the JS object and read back with
`|| 0` (background.js `updateSession`), so it is modelled as a `Nat` initialised to 0.
It stores cumulative daily-bonus points (a multiple of 10), not a day index. -/
structure Session where
  startTime : Nat
  endTime : Nat
  duration : Nat
  blockedSites : List String
  emergencyAttempts : Nat
  lastDailyBonus : Nat
  deriving Repr, DecidableEq

/-- The stats aggregate kept in `chrome.storage.local` (background.js `initializeStorage`). -/
structure Stats where
  totalCleanDays : Nat
  bestStreak : Nat
  sessionsCompleted : Nat
  deriving Repr, DecidableEq

/-- The slice of `chrome.storage.local` state the session lifecycle reads and writes:
`currentStreak`, `totalScore`, the live `blockedSites` list and the nullable
`activeSession` (a session is "active" exactly when `activeSession` is `some`). -/
structure LocalState where
  currentStreak : Nat
  totalScore : Nat
  blockedSites : List String
  activeSession : Option Session
  stats : Stats
  deriving Repr, DecidableEq

/-- Errors of the session-start validations: the empty-list guard of
`startBlockSession` (blocked.js line 550), and the duration and active-session
guards of `SupabaseSecuritySystem.validateSession` (lines 254–273). -/
inductive StartError where
  | emptySiteList
  | invalidDuration
  | sessionAlreadyActive
  deriving Repr, DecidableEq

/-- `startSession`, combining the checks of `NoCornPopup.startBlockSession`
(blocked.js: empty-list guard first, then the 1–365 duration guard) with the
active-session guard of `SupabaseSecuritySystem.validateSession`.  On success it
builds the session object exactly as blocked.js does
(`endTime = startTime + days*86400000`, `emergencyAttempts = 0`) and adds
`days * 50` to `totalScore` (`this.totalScore += days * 50`). -/
def startSession (siteList : List String) (durationDays : Nat) (now : Nat)
    (st : LocalState) : Except StartError LocalState :=
  if siteList.isEmpty then .error .emptySiteList
  else if durationDays < 1 ∨ 365 < durationDays then .error .invalidDuration
  else if st.activeSession.isSome then .error .sessionAlreadyActive
  else
    let s : Session :=
      { startTime := now
        endTime := now + durationDays * 86400000
        duration := durationDays
        blockedSites := siteList
        emergencyAttempts := 0
        lastDailyBonus := 0 }
    .ok { st with
            activeSession := some s
            totalScore := st.totalScore + durationDays * 50 }

/-- Outcome of pressing the emergency-disable button
(`NoCornPopup.attemptEmergencyDisable`, blocked.js lines 684–696):
fewer than 3 attempts shows a motivational intervention, otherwise the
disable form is shown.  The JS dereferences `this.activeSession`, so the
no-session case is modelled as a separate inert outcome. -/
inductive EmergencyOutcome where
  | intervention
  | showDisableForm
  | noSession
  deriving Repr, DecidableEq

/-- `NoCornPopup.attemptEmergencyDisable` (blocked.js):
`emergencyAttempts = (emergencyAttempts || 0) + 1`; if the new count is `>= 3`
the emergency-disable form is shown, else a motivational intervention.
The counter is stored back unconditionally and is never capped. -/
def attemptEmergencyDisable (st : LocalState) : EmergencyOutcome × LocalState :=
  match st.activeSession with
  | none => (.noSession, st)
  | some s =>
      let s' : Session := { s with emergencyAttempts := s.emergencyAttempts + 1 }
      if 3 ≤ s'.emergencyAttempts then
        (.showDisableForm, { st with activeSession := some s' })
      else
        (.intervention, { st with activeSession := some s' })

/-- Error of the emergency-disable confirmation. -/
inductive DisableError where
  | missingReason
  deriving Repr, DecidableEq

/-- JavaScript `String.prototype.trim`: strip whitespace from both ends
(modelled structurally over the character list). -/
def jsTrim (s : String) : String :=
  String.mk (((s.toList.dropWhile Char.isWhitespace).reverse.dropWhile
    Char.isWhitespace).reverse)

/-- Confirmed emergency disable: the reason guard comes from the secure popup's
form handler (`SecureNoCornPopup.showSecureEmergencyDisableForm`:
`reason = value.trim(); if (!reason) … return`), the penalty from
`NoCornPopup.performEmergencyDisable` (blocked.js lines 698–770):
`currentStreak = 0`, `totalScore = Math.max(0, totalScore - 500)`,
session cleared.  `Nat` subtraction is exactly the 0-floored decrement. -/
def confirmEmergencyDisable (reason : String) (st : LocalState) :
    Except DisableError LocalState :=
  if jsTrim reason = "" then .error .missingReason
  else
    .ok { st with
            currentStreak := 0
            totalScore := st.totalScore - 500
            activeSession := none }

/-- The `emergencyAttempts` counter of the active session, 0 when none. -/
def sessionAttempts (st : LocalState) : Nat :=
  (st.activeSession.map (fun s => s.emergencyAttempts)).getD 0

/-- `n` consecutive invocations of `attemptEmergencyDisable` (outcomes discarded). -/
def iterateAttempts : Nat → LocalState → LocalState
  | 0, st => st
  | n + 1, st => iterateAttempts n (attemptEmergencyDisable st).2

/-! ## Point policy (`SupabaseSecuritySystem.calculateSecurePoints`,
`getDiminishingReturnsMultiplier`) -/

/-- The context fields the point rules read
(`data.duration` for `start_session`, `data.daysCompleted` for `complete_session`). -/
structure ActionData where
  duration : Nat
  daysCompleted : Nat
  deriving Repr, DecidableEq

/-- Base point table of `calculateSecurePoints` (SupabaseSecuritySystem.js
lines 276–292).  JavaScript's `data.duration || 1` and `data.daysCompleted || 1`
default a missing-or-zero value to 1; unknown actions get base 0. -/
def basePoints (action : String) (data : ActionData) : Nat :=
  if action = "add_site" then 10
  else if action = "start_session" then
    (if data.duration = 0 then 1 else data.duration) * 50
  else if action = "complete_session" then
    (if data.daysCompleted = 0 then 1 else data.daysCompleted) * 100
  else if action = "daily_bonus" then 10
  else if action = "emergency_resist" then 25
  else if action = "panic_mode" then 25
  else 0

/-- `getDiminishingReturnsMultiplier` (lines 380–397) in tenths:
count `< 10 → 1.0`, `< 50 → 0.8`, `< 100 → 0.6`, otherwise `0.4`.
A missing count row yields 1.0, the same as count 0. -/
def multiplierTenths (count : Nat) : Nat :=
  if count < 10 then 10
  else if count < 50 then 8
  else if count < 100 then 6
  else 4

/-- `calculateSecurePoints`: `Math.floor(basePoints * multiplier)`, with the float
multiplier as exact tenths, so the floor is `Nat` division by 10. -/
def calculateSecurePoints (action : String) (data : ActionData) (count : Nat) : Nat :=
  basePoints action data * multiplierTenths count / 10

/-! ## Rate limiter (`SupabaseSecuritySystem.checkRateLimit`, lines 147–173) -/

/-- The `limits` table of `checkRateLimit`, as written in the source: note the
key is the string `"session_start"` (with comment "3 per day"), while every
caller of the pipeline passes the action string `"start_session"`. -/
def rateLimitConfig (action : String) : Option (Nat × Nat) :=
  if action = "add_site" then some (5, 3600000)
  else if action = "panic_mode" then some (3, 1800000)
  else if action = "emergency_resist" then some (10, 3600000)
  else if action = "session_start" then some (3, 86400000)
  else none

/-- Failure of the rate-limit check. -/
inductive RateError where
  | rateLimitExceeded
  deriving Repr, DecidableEq

/-- `checkRateLimit` for one `(userId, action)` key: `attempts` is the stored
timestamp list for that key.  Unconfigured actions pass untouched; otherwise
stale entries (`now - time >= window`) are pruned, the call fails when the
remaining count has reached `max`, and on success the current timestamp is
recorded (`validAttempts.push(now)`). -/
def checkRateLimit (action : String) (attempts : List Nat) (now : Nat) :
    Except RateError (List Nat) :=
  match rateLimitConfig action with
  | none => .ok attempts
  | some (mx, window) =>
      let validAttempts := attempts.filter (fun t => now - t < window)
      if mx ≤ validAttempts.length then .error .rateLimitExceeded
      else .ok (validAttempts ++ [now])

/-! ## Periodic tick and natural completion
(`NoCornBackground.updateSession`, `NoCornBackground.completeSession`) -/

/-- `NoCornBackground.completeSession` (background.js lines 252–305):
`daysCompleted = Math.floor((now - startTime) / 86400000)` — with NO clamp to
`duration` — completion bonus `daysCompleted * 100`, streak increased by
`daysCompleted`, stats aggregates updated, session cleared.
`NoCornPopup.completeSession` (blocked.js lines 653–682) is identical on
these fields. -/
def completeSessionState (s : Session) (now : Nat) (st : LocalState) : LocalState :=
  let daysCompleted := (now - s.startTime) / 86400000
  let newStreak := st.currentStreak + daysCompleted
  { st with
      currentStreak := newStreak
      totalScore := st.totalScore + daysCompleted * 100
      stats :=
        { totalCleanDays := st.stats.totalCleanDays + daysCompleted
          bestStreak := max st.stats.bestStreak newStreak
          sessionsCompleted := st.stats.sessionsCompleted + 1 }
      activeSession := none }

/-- `NoCornBackground.updateSession` (background.js lines 210–250): no session →
no-op; `now >= endTime` → natural completion; otherwise
`hoursElapsed = floor((now - startTime)/3600000)`,
`dailyBonus = floor(hoursElapsed/24) * 10`, and when `dailyBonus` exceeds the
stored `lastDailyBonus` the difference is awarded once and `lastDailyBonus`
is advanced. -/
def updateSession (now : Nat) (st : LocalState) : LocalState :=
  match st.activeSession with
  | none => st
  | some s =>
      if s.endTime ≤ now then completeSessionState s now st
      else
        let hoursElapsed := (now - s.startTime) / 3600000
        let dailyBonus := hoursElapsed / 24 * 10
        if s.lastDailyBonus < dailyBonus then
          { st with
              activeSession := some { s with lastDailyBonus := dailyBonus }
              totalScore := st.totalScore + (dailyBonus - s.lastDailyBonus) }
        else st

/-! ## Blocking status (`NoCornBackground.getBlockingStatus`, `extractDomain`) -/

/-- Result shape of `getBlockingStatus`; the no-session branch of the JS returns
only `{ blocked: false }`, modelled with defaults `""` and `0` for the other
fields. -/
structure BlockCheck where
  blocked : Bool
  site : String
  timeRemaining : Int
  deriving Repr, DecidableEq

/-- `extractDomain` (background.js lines 381–388): `new URL(url).hostname` with a
leading `www.` removed, and `""` when URL parsing throws.  URL parsing itself is
the platform's; its outcome is the `hostname?` argument (`none` = unparsable). -/
def extractDomain (hostname? : Option String) : String :=
  match hostname? with
  | none => ""
  | some h =>
      if ("www.".toList).isPrefixOf h.toList then String.mk (h.toList.drop 4)
      else h

/-- Substring containment on character lists: `pat` occurs contiguously in the
list.  (`containsSub pat l = true ↔ pat <:+: l`, proved below.) -/
def containsSub (pat : List Char) : List Char → Bool
  | [] => pat.isEmpty
  | c :: rest => pat.isPrefixOf (c :: rest) || containsSub pat rest

/-- JavaScript `String.prototype.includes`: substring containment
(every string contains `""`). -/
def jsIncludes (s pat : String) : Bool :=
  containsSub pat.toList s.toList

/-- `NoCornBackground.getBlockingStatus` (lines 363–388): without an active
session the answer is `blocked: false`; with one, the domain is blocked exactly
when `activeSession.blockedSites.some(site => domain.includes(site))`. -/
def getBlockingStatus (st : LocalState) (hostname? : Option String) (now : Nat) :
    BlockCheck :=
  match st.activeSession with
  | none => { blocked := false, site := "", timeRemaining := 0 }
  | some s =>
      let domain := extractDomain hostname?
      { blocked := s.blockedSites.any (fun site => jsIncludes domain site)
        site := domain
        timeRemaining := (s.endTime : Int) - (now : Int) }

/-! ## Integrity log (`SimpleBlockchain`, SupabaseSecuritySystem.js lines 424–456) -/

/-- The payload recorded per block (`recordToBlockchain`): user, action, awarded
points and the digest of the context data. -/
structure BlockData where
  userId : String
  action : String
  points : Nat
  context : String
  deriving Repr, DecidableEq

/-- A block as built by `SimpleBlockchain.createBlock`:
`{ timestamp, data, previousHash, nonce, hash }`. -/
structure Block where
  timestamp : Nat
  data : BlockData
  previousHash : String
  nonce : Nat
  hash : String
  deriving Repr, DecidableEq

/-- The digest primitive.  The source computes
`CryptoJS.SHA256(previousHash + timestamp + JSON.stringify(data) + nonce)`;
SHA-256 is an external library primitive, so the whole composition is kept as an
explicit function parameter of the four inputs. -/
abbrev Digest := String → Nat → BlockData → Nat → String

/-- `this.difficulty = 2` in the `SimpleBlockchain` constructor. -/
def difficulty : Nat := 2

/-- `Array(difficulty + 1).join("0")`: the string of `difficulty` zero characters. -/
def powTarget : String := String.mk (List.replicate difficulty '0')

/-- `SimpleBlockchain.calculateHash` (lines 448–455), via the digest parameter. -/
def calculateHash (digest : Digest) (previousHash : String) (timestamp : Nat)
    (data : BlockData) (nonce : Nat) : String :=
  digest previousHash timestamp data nonce

/-- The proof-of-work acceptance test of `createBlock`:
`hash.substring(0, difficulty) === Array(difficulty + 1).join("0")`. -/
def powOk (h : String) : Bool :=
  h.take difficulty == powTarget

/-- The `while` loop of `createBlock`: increment `nonce` and re-hash until the
proof-of-work test passes.  The JS loop is unbounded; with an arbitrary digest
it need not terminate, so the search carries explicit fuel and an entry is
accepted exactly when the search returns `some`. -/
def findNonce (digest : Digest) (previousHash : String) (timestamp : Nat)
    (data : BlockData) : Nat → Nat → Option Block
  | 0, nonce =>
      let h := calculateHash digest previousHash timestamp data nonce
      if powOk h then
        some { timestamp := timestamp, data := data, previousHash := previousHash
               nonce := nonce, hash := h }
      else none
  | fuel + 1, nonce =>
      let h := calculateHash digest previousHash timestamp data nonce
      if powOk h then
        some { timestamp := timestamp, data := data, previousHash := previousHash
               nonce := nonce, hash := h }
      else findNonce digest previousHash timestamp data fuel (nonce + 1)

/-- `SimpleBlockchain.createBlock`: start the nonce search at 0. -/
def createBlock (digest : Digest) (previousHash : String) (timestamp : Nat)
    (data : BlockData) (fuel : Nat) : Option Block :=
  findNonce digest previousHash timestamp data fuel 0

/-- `SupabaseSecuritySystem.getLastBlockHash` (lines 368–378): hash of the most
recently stored block, or the genesis constant `"0"` when the chain is empty. -/
def getLastBlockHash (chain : List Block) : String :=
  ((chain.getLast?).map (fun b => b.hash)).getD "0"

/-- One pass of `recordToBlockchain`: create a block whose `previousHash` is
`getLastBlockHash` of the stored chain, and append it. -/
def appendBlock (digest : Digest) (fuel : Nat) (chain : List Block)
    (timestamp : Nat) (data : BlockData) : Option (List Block) :=
  (createBlock digest (getLastBlockHash chain) timestamp data fuel).map
    (fun b => chain ++ [b])

/-- Appending a list of `(timestamp, data)` entries through the integrity log. -/
def buildChain (digest : Digest) (fuel : Nat) :
    List Block → List (Nat × BlockData) → Option (List Block)
  | chain, [] => some chain
  | chain, (ts, dat) :: rest =>
      match appendBlock digest fuel chain ts dat with
      | none => none
      | some chain' => buildChain digest fuel chain' rest

/-- Verdict of chain verification: `valid`, or the first tampered index. -/
inductive ChainCheck where
  | valid
  | tampered (i : Nat)
  deriving Repr, DecidableEq

/-- An entry whose stored hash matches the recomputed digest of its stored
`previousHash`, `timestamp`, `data` and `nonce`. -/
def goodBlock (digest : Digest) (b : Block) : Bool :=
  calculateHash digest b.previousHash b.timestamp b.data b.nonce == b.hash

/-- Modelled from the spec: `verifyChain(entries)` (§4.4) is described in the
specification but has no implementation under src/ — "recomputes each hash and
reports the first index where recomputed hash ≠ stored hash, or valid if none".
The recomputation uses the same `calculateHash` as `SimpleBlockchain`. -/
def verifyAux (digest : Digest) (i : Nat) : List Block → ChainCheck
  | [] => .valid
  | b :: rest =>
      if goodBlock digest b then verifyAux digest (i + 1) rest
      else .tampered i

/-- Modelled from the spec: `verifyChain(entries)` over a stored chain, indices
starting at 0 (see `verifyAux`). -/
def verifyChain (digest : Digest) (chain : List Block) : ChainCheck :=
  verifyAux digest 0 chain

/-- Mutating a stored entry's `pointsAwarded` field after the fact. -/
def setPoints (b : Block) (p : Nat) : Block :=
  { b with data := { b.data with points := p } }

/-! ## Concrete states used by witnesses and counterexamples -/

/-- A fresh state: no active session, one site in the live list, zero scores. -/
def demoState : LocalState :=
  { currentStreak := 0
    totalScore := 0
    blockedSites := ["example.com"]
    activeSession := none
    stats := { totalCleanDays := 0, bestStreak := 0, sessionsCompleted := 0 } }

/-! # Theorems -/

/-- C1: `startSession` fails with `InvalidDuration` for `durationDays` outside
[1,365], with `EmptySiteList` for an empty site list, and with
`SessionAlreadyActive` when a session is already active (guards in the order
the code runs them: empty list, then duration, then active session); every
successful call adds exactly `durationDays * 50` points to `totalScore` and
installs the created session as the active one. -/
theorem c1_startSession_validation_and_award (siteList : List String) (d now : Nat)
    (st : LocalState) :
    (siteList = [] → startSession siteList d now st = .error .emptySiteList) ∧
    (siteList ≠ [] → (d < 1 ∨ 365 < d) →
      startSession siteList d now st = .error .invalidDuration) ∧
    (siteList ≠ [] → 1 ≤ d → d ≤ 365 → st.activeSession.isSome →
      startSession siteList d now st = .error .sessionAlreadyActive) ∧
    (siteList ≠ [] → 1 ≤ d → d ≤ 365 → st.activeSession = none →
      startSession siteList d now st = .ok { st with
        activeSession := some
          { startTime := now
            endTime := now + d * 86400000
            duration := d
            blockedSites := siteList
            emergencyAttempts := 0
            lastDailyBonus := 0 }
        totalScore := st.totalScore + d * 50 }) := by
  refine ⟨?_, ?_, ?_, ?_⟩
  · intro h; subst h; rfl
  · intro h1 h2
    simp only [startSession, List.isEmpty_eq_true, h1, if_false, if_pos h2]
  · intro h1 h2 h3 h4
    have hd : ¬ (d < 1 ∨ 365 < d) := by omega
    simp only [startSession, List.isEmpty_eq_true, h1, if_false, if_neg hd, h4,
      if_true]
  · intro h1 h2 h3 h4
    have hd : ¬ (d < 1 ∨ 365 < d) := by omega
    simp only [startSession, List.isEmpty_eq_true, h1, if_false, if_neg hd, h4,
      Option.isSome_none, Bool.false_eq_true]

/-- Witness for C1: concrete successful start, 7 days, one site. -/
theorem c1_startSession_witness :
    startSession ["example.com"] 7 1000 demoState = .ok { demoState with
      activeSession := some
        { startTime := 1000
          endTime := 1000 + 7 * 86400000
          duration := 7
          blockedSites := ["example.com"]
          emergencyAttempts := 0
          lastDailyBonus := 0 }
      totalScore := demoState.totalScore + 7 * 50 } :=
  (c1_startSession_validation_and_award ["example.com"] 7 1000 demoState).2.2.2
    (by decide) (by decide) (by decide) rfl

/-- A 7-day active session with no emergency attempts yet. -/
def sessionA : Session :=
  { startTime := 0
    endTime := 7 * 86400000
    duration := 7
    blockedSites := ["example.com"]
    emergencyAttempts := 0
    lastDailyBonus := 0 }

/-- A state holding 300 points with `sessionA` active. -/
def activeState : LocalState :=
  { demoState with activeSession := some sessionA, totalScore := 300 }

/-- The state after a confirmed emergency disable from `activeState`. -/
def disabledState : LocalState :=
  { activeState with
      currentStreak := 0
      totalScore := activeState.totalScore - 500
      activeSession := none }

/-- C2: on an active session with no prior attempts, emergency-disable attempts
1 and 2 both yield the intervention outcome and change neither `totalScore` nor
`currentStreak`; confirmation fails with `MissingReason` for a blank reason, and
a successful confirmation resets `currentStreak` to 0 and sets `totalScore` to
`max 0 (totalScore - 500)` — in particular 300 points end at 0. -/
theorem c2_emergency_flow (st : LocalState) (s : Session)
    (hs : st.activeSession = some s) (h0 : s.emergencyAttempts = 0) :
    (attemptEmergencyDisable st).1 = .intervention ∧
    (attemptEmergencyDisable st).2.totalScore = st.totalScore ∧
    (attemptEmergencyDisable st).2.currentStreak = st.currentStreak ∧
    (attemptEmergencyDisable (attemptEmergencyDisable st).2).1 = .intervention ∧
    (attemptEmergencyDisable (attemptEmergencyDisable st).2).2.totalScore
      = st.totalScore ∧
    (attemptEmergencyDisable (attemptEmergencyDisable st).2).2.currentStreak
      = st.currentStreak ∧
    (∀ reason st', jsTrim reason = "" →
      confirmEmergencyDisable reason st' = .error .missingReason) ∧
    (∀ (reason : String) (st' st'' : LocalState), jsTrim reason ≠ "" →
      confirmEmergencyDisable reason st' = .ok st'' →
      st''.currentStreak = 0 ∧
      (st''.totalScore : Int) = max 0 ((st'.totalScore : Int) - 500) ∧
      (st'.totalScore = 300 → st''.totalScore = 0)) := by
  have h1 : attemptEmergencyDisable st =
      (.intervention, { st with activeSession := some { s with emergencyAttempts := 1 } }) := by
    simp [attemptEmergencyDisable, hs, h0]
  have h2 : attemptEmergencyDisable
      { st with activeSession := some { s with emergencyAttempts := 1 } } =
      (.intervention, { st with activeSession := some { s with emergencyAttempts := 2 } }) := by
    simp [attemptEmergencyDisable]
  refine ⟨by rw [h1], by rw [h1], by rw [h1], by rw [h1, h2], by rw [h1, h2],
    by rw [h1, h2], ?_, ?_⟩
  · intro reason st' h
    simp [confirmEmergencyDisable, h]
  · intro reason st' st'' h hok
    simp only [confirmEmergencyDisable, h, if_false, Except.ok.injEq] at hok
    subst hok
    refine ⟨rfl, ?_, ?_⟩
    · simp only []
      omega
    · intro h300
      simp [h300]

/-- Witness for C2: concrete run from `activeState` (300 points). -/
theorem c2_emergency_witness :
    (attemptEmergencyDisable activeState).1 = EmergencyOutcome.intervention ∧
    (attemptEmergencyDisable activeState).2.totalScore = activeState.totalScore ∧
    confirmEmergencyDisable "" activeState = Except.error DisableError.missingReason ∧
    disabledState.currentStreak = 0 ∧
    disabledState.totalScore = 0 := by
  have h := c2_emergency_flow activeState sessionA rfl rfl
  refine ⟨h.1, h.2.1, h.2.2.2.2.2.2.1 "" activeState (by decide), ?_, ?_⟩
  · exact (h.2.2.2.2.2.2.2 "relapse" activeState disabledState (by decide) rfl).1
  · exact (h.2.2.2.2.2.2.2 "relapse" activeState disabledState (by decide) rfl).2.2 rfl

/-- `attemptEmergencyDisable` keeps the session active and increments its
counter by exactly one. -/
theorem attempt_session_step (st : LocalState) (s : Session)
    (hs : st.activeSession = some s) :
    (attemptEmergencyDisable st).2.activeSession
      = some { s with emergencyAttempts := s.emergencyAttempts + 1 } := by
  simp only [attemptEmergencyDisable, hs]
  split <;> rfl

/-- C9 (amended): `emergencyAttempts` is a `Nat` that grows by exactly one on
every `attemptEmergencyDisable` invocation on an active session — after `n`
invocations it equals the initial value plus `n`; the code never caps it, so it
exceeds 3 after a 4th invocation. -/
theorem c9_attempts_uncapped (n : Nat) (st : LocalState) (s : Session)
    (hs : st.activeSession = some s) :
    sessionAttempts (iterateAttempts n st) = s.emergencyAttempts + n := by
  induction n generalizing st s with
  | zero => simp [iterateAttempts, sessionAttempts, hs]
  | succ n ih =>
      have hstep := attempt_session_step st s hs
      calc sessionAttempts (iterateAttempts (n + 1) st)
          = sessionAttempts (iterateAttempts n (attemptEmergencyDisable st).2) := rfl
        _ = ({ s with emergencyAttempts := s.emergencyAttempts + 1 }).emergencyAttempts + n :=
            ih _ _ hstep
        _ = s.emergencyAttempts + (n + 1) := by simp; omega

/-- Witness for C9's amended statement: 4 invocations from `activeState`. -/
theorem c9_attempts_witness :
    sessionAttempts (iterateAttempts 4 activeState) = sessionA.emergencyAttempts + 4 :=
  c9_attempts_uncapped 4 activeState sessionA rfl

/-- Counterexample for C9 as stated: after 4 invocations of
`attemptEmergencyDisable` on an active session, the counter is 4, which
exceeds the cap of 3 the claim asserts. -/
theorem c9_attempts_cap_counterexample :
    ¬ sessionAttempts (iterateAttempts 4 activeState) ≤ 3 := by decide

/-- Evaluation of `updateSession` strictly before `endTime`: the nested
`floor(floor((now-start)/3600000)/24)` of the code equals
`floor((now-start)/86400000)`. -/
theorem updateSession_eq (now : Nat) (st : LocalState) (s : Session)
    (hs : st.activeSession = some s) (hnow : now < s.endTime) :
    updateSession now st =
      if s.lastDailyBonus < (now - s.startTime) / 86400000 * 10 then
        { st with
            activeSession :=
              some { s with lastDailyBonus := (now - s.startTime) / 86400000 * 10 }
            totalScore :=
              st.totalScore + ((now - s.startTime) / 86400000 * 10 - s.lastDailyBonus) }
      else st := by
  have hdiv : (now - s.startTime) / 3600000 / 24 = (now - s.startTime) / 86400000 := by
    rw [Nat.div_div_eq_div_mul]
  simp only [updateSession, hs]
  rw [if_neg (by omega)]
  simp only [hdiv]

/-- A fresh 10-day session starting at time 0. -/
def tickSession : Session :=
  { startTime := 0
    endTime := 864000000
    duration := 10
    blockedSites := ["example.com"]
    emergencyAttempts := 0
    lastDailyBonus := 0 }

/-- `tickSession` active on the fresh demo state. -/
def tickState : LocalState :=
  { demoState with activeSession := some tickSession }

/-- Five consecutive `tick()` calls, all at elapsed time 2 days. -/
def tickFive : LocalState :=
  updateSession 172800000 (updateSession 172800000 (updateSession 172800000
    (updateSession 172800000 (updateSession 172800000 tickState))))

/-- C3: during an active session (strictly before `endTime`), a tick at
`daysElapsed = floor((now-startTime)/86400s)` awards
`10 * (daysElapsed - lastDay)` points when `daysElapsed > lastDay` and nothing
otherwise (the stored `lastDailyBonus` holds `10 * lastDay`); any further tick
at the same elapsed-day value is a no-op; and five consecutive ticks at
elapsed day 2 on a fresh session award exactly 20 points, not 100. -/
theorem c3_daily_bonus_idempotent (st : LocalState) (s : Session) (now lastDay : Nat)
    (hs : st.activeSession = some s) (hnow : now < s.endTime)
    (hlast : s.lastDailyBonus = 10 * lastDay) :
    ((now - s.startTime) / 86400000 ≤ lastDay → updateSession now st = st) ∧
    (lastDay < (now - s.startTime) / 86400000 →
      (updateSession now st).totalScore
        = st.totalScore + 10 * ((now - s.startTime) / 86400000 - lastDay)) ∧
    (∀ now', now' < s.endTime →
      (now' - s.startTime) / 86400000 = (now - s.startTime) / 86400000 →
      updateSession now' (updateSession now st) = updateSession now st) ∧
    (tickFive.totalScore = tickState.totalScore + 20 ∧
      tickFive.totalScore ≠ tickState.totalScore + 100) := by
  have heq := updateSession_eq now st s hs hnow
  refine ⟨?_, ?_, ?_, by decide⟩
  · intro hle
    rw [heq, if_neg (by omega)]
  · intro hlt
    rw [heq, if_pos (by omega)]
    simp only []
    omega
  · intro now' hnow' hd
    by_cases hc : s.lastDailyBonus < (now - s.startTime) / 86400000 * 10
    · rw [heq, if_pos hc]
      have heq2 := updateSession_eq now'
        { st with
            activeSession :=
              some { s with lastDailyBonus := (now - s.startTime) / 86400000 * 10 }
            totalScore :=
              st.totalScore + ((now - s.startTime) / 86400000 * 10 - s.lastDailyBonus) }
        { s with lastDailyBonus := (now - s.startTime) / 86400000 * 10 }
        rfl hnow'
      rw [heq2]
      simp only [hd]
      rw [if_neg (by omega)]
    · rw [heq, if_neg hc]
      have heq3 := updateSession_eq now' st s hs hnow'
      rw [heq3]
      simp only [hd]
      rw [if_neg hc]

/-- Witness for C3: fresh session, tick at elapsed day 2 awards 20 points. -/
theorem c3_daily_bonus_witness :
    (updateSession 172800000 tickState).totalScore
      = tickState.totalScore + 10 * ((172800000 - tickSession.startTime) / 86400000 - 0) :=
  (c3_daily_bonus_idempotent tickState tickSession 172800000 0 rfl (by decide)
    rfl).2.1 (by decide)

/-- C4: points awarded are `floor(base * multiplier)` where the multiplier is
1.0 / 0.8 / 0.6 / 0.4 in tenths, depending only on the lifetime occurrence
count (`< 10`, `< 50`, `< 100`, otherwise); in particular the 9th `add_site`
occurrence (count 8) yields 10 points, the 11th (count 10) yields 8, the 51st
(count 50) yields 6, the 101st (count 100) yields 4. -/
theorem c4_diminishing_returns (action : String) (data : ActionData) (count : Nat) :
    (10 * calculateSecurePoints action data count
        ≤ basePoints action data * multiplierTenths count ∧
      basePoints action data * multiplierTenths count
        < 10 * calculateSecurePoints action data count + 10) ∧
    (count < 10 → multiplierTenths count = 10) ∧
    (10 ≤ count → count < 50 → multiplierTenths count = 8) ∧
    (50 ≤ count → count < 100 → multiplierTenths count = 6) ∧
    (100 ≤ count → multiplierTenths count = 4) ∧
    calculateSecurePoints "add_site" data 8 = 10 ∧
    calculateSecurePoints "add_site" data 10 = 8 ∧
    calculateSecurePoints "add_site" data 50 = 6 ∧
    calculateSecurePoints "add_site" data 100 = 4 := by
  refine ⟨?_, ?_, ?_, ?_, ?_, ?_, ?_, ?_, ?_⟩
  · unfold calculateSecurePoints
    omega
  · intro h; unfold multiplierTenths; rw [if_pos h]
  · intro h1 h2; unfold multiplierTenths; rw [if_neg (by omega), if_pos h2]
  · intro h1 h2; unfold multiplierTenths
    rw [if_neg (by omega), if_neg (by omega), if_pos h2]
  · intro h; unfold multiplierTenths
    rw [if_neg (by omega), if_neg (by omega), if_neg (by omega)]
  all_goals simp [calculateSecurePoints, basePoints, multiplierTenths]

/-- Witness for C4: concrete count 10 is in the 0.8 band and the floor bounds
hold at a concrete input. -/
theorem c4_diminishing_returns_witness :
    multiplierTenths 10 = 8 ∧
    10 * calculateSecurePoints "add_site" { duration := 1, daysCompleted := 1 } 10
      ≤ basePoints "add_site" { duration := 1, daysCompleted := 1 } * multiplierTenths 10 := by
  have h := c4_diminishing_returns "add_site" { duration := 1, daysCompleted := 1 } 10
  exact ⟨h.2.2.1 (by decide) (by decide), h.1.1⟩

/-- C5: the code's rate-limit table keys the session-start window under the
string "session_start", but every caller passes the action "start_session",
so no window applies to it: a 4th `start_session` with 3 recent recorded
timestamps succeeds instead of failing, while the very same call under the
table's (unused) key fails, and the mechanism does work for `add_site`
(the 6th call within the hour fails, the 5th succeeds and is recorded). -/
theorem c5_start_session_rate_limit_dead :
    checkRateLimit "start_session" [0, 0, 0] 0 = .ok [0, 0, 0] ∧
    rateLimitConfig "start_session" = none ∧
    checkRateLimit "session_start" [0, 0, 0] 0 = .error .rateLimitExceeded ∧
    checkRateLimit "add_site" [0, 0, 0, 0, 0] 0 = .error .rateLimitExceeded ∧
    checkRateLimit "add_site" [0, 0, 0, 0] 1000 = .ok [0, 0, 0, 0, 1000] := by
  refine ⟨rfl, rfl, rfl, rfl, rfl⟩

/-- A 1-day session started at time 0, still stored long past its end. -/
def overdueSession : Session :=
  { startTime := 0
    endTime := 86400000
    duration := 1
    blockedSites := ["example.com"]
    emergencyAttempts := 0
    lastDailyBonus := 0 }

/-- `overdueSession` active on the fresh demo state. -/
def overdueState : LocalState :=
  { demoState with activeSession := some overdueSession }

/-- C6 (amended): natural completion computes
`daysCompleted = floor((now - startTime)/86400s)` with NO clamp to
`durationDays`, awards `daysCompleted * 100`, increments `currentStreak` by
`daysCompleted`, clears the session; completing at `startTime` awards 0. -/
theorem c6_completeSession_unclamped (s : Session) (now : Nat) (st : LocalState)
    (h : s.startTime ≤ now) :
    (completeSessionState s now st).totalScore
      = st.totalScore + (now - s.startTime) / 86400000 * 100 ∧
    (completeSessionState s now st).currentStreak
      = st.currentStreak + (now - s.startTime) / 86400000 ∧
    (completeSessionState s now st).activeSession = none ∧
    (now = s.startTime → (completeSessionState s now st).totalScore = st.totalScore) := by
  refine ⟨rfl, rfl, rfl, ?_⟩
  intro h2
  subst h2
  simp [completeSessionState, Nat.sub_self]

/-- Witness for C6's amended statement: completing the 1-day `overdueSession`
3 days after its start awards 300 points. -/
theorem c6_completeSession_witness :
    (completeSessionState overdueSession 259200000 overdueState).totalScore
      = overdueState.totalScore
        + (259200000 - overdueSession.startTime) / 86400000 * 100 :=
  (c6_completeSession_unclamped overdueSession 259200000 overdueState (by decide)).1

/-- Counterexample for C6 as stated: the code does not clamp `daysCompleted` to
`durationDays` — completing the 1-day session 3 days in awards 300 points,
not the 100 the clamped formula gives. -/
theorem c6_clamp_counterexample :
    (completeSessionState overdueSession 259200000 overdueState).totalScore
        = overdueState.totalScore + 300 ∧
    ¬ (completeSessionState overdueSession 259200000 overdueState).totalScore
        = overdueState.totalScore
          + min ((259200000 - overdueSession.startTime) / 86400000)
              overdueSession.duration * 100 := by
  refine ⟨by decide, by decide⟩

/-- The nonce search only ever returns blocks that store the inputs, whose
stored hash is the recomputed digest, and which pass the proof-of-work test. -/
theorem findNonce_some (digest : Digest) (prev : String) (ts : Nat)
    (dat : BlockData) :
    ∀ (fuel n : Nat) (b : Block), findNonce digest prev ts dat fuel n = some b →
      b.previousHash = prev ∧ b.timestamp = ts ∧ b.data = dat ∧
      b.hash = calculateHash digest prev ts dat b.nonce ∧ powOk b.hash = true := by
  intro fuel
  induction fuel with
  | zero =>
      intro n b h
      simp only [findNonce] at h
      split at h
      · cases h
        exact ⟨rfl, rfl, rfl, rfl, by assumption⟩
      · cases h
  | succ fuel ih =>
      intro n b h
      simp only [findNonce] at h
      split at h
      · cases h
        exact ⟨rfl, rfl, rfl, rfl, by assumption⟩
      · exact ih (n + 1) b h

/-- Blocks returned by `createBlock` recompute correctly. -/
theorem createBlock_good (digest : Digest) (prev : String) (ts : Nat)
    (dat : BlockData) (fuel : Nat) (b : Block)
    (h : createBlock digest prev ts dat fuel = some b) :
    goodBlock digest b = true ∧ b.previousHash = prev ∧ powOk b.hash = true := by
  obtain ⟨h1, h2, h3, h4, h5⟩ := findNonce_some digest prev ts dat fuel 0 b h
  refine ⟨?_, h1, h5⟩
  simp only [goodBlock, h1, h2, h3, ← h4, beq_self_eq_true]

/-- Every block of a chain produced by appending recomputes correctly, given
the initial chain does. -/
theorem buildChain_good (digest : Digest) (fuel : Nat) :
    ∀ (items : List (Nat × BlockData)) (chain chain' : List Block),
      buildChain digest fuel chain items = some chain' →
      (∀ b ∈ chain, goodBlock digest b = true) →
      ∀ b ∈ chain', goodBlock digest b = true := by
  intro items
  induction items with
  | nil =>
      intro chain chain' h hall
      simp only [buildChain] at h
      cases h
      exact hall
  | cons x rest ih =>
      intro chain chain' h hall
      obtain ⟨ts, dat⟩ := x
      simp only [buildChain] at h
      split at h
      · cases h
      · next c2 happ =>
          refine ih c2 chain' h ?_
          simp only [appendBlock, Option.map_eq_some'] at happ
          obtain ⟨b, hb, rfl⟩ := happ
          intro b' hb'
          rcases List.mem_append.mp hb' with h1 | h2
          · exact hall b' h1
          · rw [List.mem_singleton.mp h2]
            exact (createBlock_good digest _ ts dat fuel b hb).1

/-- A chain all of whose entries recompute correctly verifies as valid. -/
theorem verifyAux_valid (digest : Digest) :
    ∀ (chain : List Block), (∀ b ∈ chain, goodBlock digest b = true) →
      ∀ i, verifyAux digest i chain = .valid := by
  intro chain
  induction chain with
  | nil => intro _ i; rfl
  | cons c t ih =>
      intro hall i
      simp only [verifyAux, hall c (List.mem_cons_self c t), if_true]
      exact ih (fun b hb => hall b (List.mem_cons_of_mem c hb)) (i + 1)

/-- Replacing entry `i` of an all-good chain by a non-recomputing entry makes
verification report exactly index `i` (offset by the start index `k`). -/
theorem verifyAux_set_bad (digest : Digest) :
    ∀ (chain : List Block) (i k : Nat) (b' : Block),
      (∀ b ∈ chain, goodBlock digest b = true) → i < chain.length →
      goodBlock digest b' = false →
      verifyAux digest k (chain.set i b') = .tampered (k + i) := by
  intro chain
  induction chain with
  | nil => intro i k b' _ h2 _; simp at h2
  | cons c t ih =>
      intro i k b' hall hlen hbad
      cases i with
      | zero =>
          simp only [List.set, verifyAux, hbad, Bool.false_eq_true, if_false,
            Nat.add_zero]
      | succ i =>
          simp only [List.set, verifyAux, hall c (List.mem_cons_self c t), if_true]
          have hrec := ih i (k + 1) b'
            (fun b hb => hall b (List.mem_cons_of_mem c hb))
            (by simpa using hlen) hbad
          rw [hrec]
          have : k + 1 + i = k + (i + 1) := by omega
          rw [this]

/-- C7: every chain produced by appending entries through the integrity log
verifies as "valid"; and if a single stored entry's `pointsAwarded` field is
mutated afterwards — and the recomputed digest of the mutated entry differs
from its stored hash, which is what the spec assumes of SHA-256 — then
`verifyChain` reports exactly that entry's index as the first tampered one. -/
theorem c7_verifyChain_roundtrip (digest : Digest) (fuel : Nat)
    (items : List (Nat × BlockData)) (chain : List Block)
    (hbuild : buildChain digest fuel [] items = some chain) :
    verifyChain digest chain = .valid ∧
    (∀ (i : Nat) (b : Block) (p' : Nat), chain[i]? = some b →
      goodBlock digest (setPoints b p') = false →
      verifyChain digest (chain.set i (setPoints b p')) = .tampered i) := by
  have hall : ∀ b ∈ chain, goodBlock digest b = true :=
    buildChain_good digest fuel items [] chain hbuild (by intro b hb; cases hb)
  refine ⟨verifyAux_valid digest chain hall 0, ?_⟩
  intro i b p' hget hbad
  have hlen : i < chain.length := by
    obtain ⟨hl, -⟩ := List.getElem?_eq_some.mp hget
    exact hl
  have := verifyAux_set_bad digest chain i 0 (setPoints b p') hall hlen hbad
  simpa [verifyChain] using this

/-- Chain building preserves the first entry of a nonempty chain. -/
theorem buildChain_head (digest : Digest) (fuel : Nat) :
    ∀ (items : List (Nat × BlockData)) (chain chain' : List Block),
      buildChain digest fuel chain items = some chain' → chain ≠ [] →
      chain'.head? = chain.head? := by
  intro items
  induction items with
  | nil =>
      intro chain chain' h _
      simp only [buildChain] at h
      cases h
      rfl
  | cons x rest ih =>
      intro chain chain' h hne
      obtain ⟨ts, dat⟩ := x
      simp only [buildChain] at h
      split at h
      · cases h
      · next c2 happ =>
          simp only [appendBlock, Option.map_eq_some'] at happ
          obtain ⟨b, -, rfl⟩ := happ
          cases chain with
          | nil => exact absurd rfl hne
          | cons c t =>
              have := ih (c :: t ++ [b]) chain' h (by simp)
              simpa using this

/-- C8: every entry the proof-of-work search accepts stores as its hash the
deterministic digest of its `previousHash`, `timestamp`, `data` and `nonce`,
and that hash starts with `difficulty` (= 2) '0' characters; and the first
entry of every chain built from the empty store has the genesis `previousHash`
`"0"`. -/
theorem c8_pow_postcondition (digest : Digest) :
    (∀ (prev : String) (ts : Nat) (dat : BlockData) (fuel : Nat) (b : Block),
      createBlock digest prev ts dat fuel = some b →
      b.hash = calculateHash digest b.previousHash b.timestamp b.data b.nonce ∧
      b.hash.take difficulty = powTarget ∧
      b.previousHash = prev) ∧
    (∀ (fuel : Nat) (items : List (Nat × BlockData)) (b : Block)
      (rest : List Block),
      buildChain digest fuel [] items = some (b :: rest) →
      b.previousHash = "0") := by
  constructor
  · intro prev ts dat fuel b h
    obtain ⟨h1, h2, h3, h4, h5⟩ := findNonce_some digest prev ts dat fuel 0 b h
    refine ⟨?_, ?_, h1⟩
    · rw [h4, h1, h2, h3]
    · simpa [powOk] using h5
  · intro fuel items b rest h
    cases items with
    | nil => simp only [buildChain] at h; cases h
    | cons x rest' =>
        obtain ⟨ts, dat⟩ := x
        simp only [buildChain] at h
        split at h
        · cases h
        · next c2 happ =>
            simp only [appendBlock, Option.map_eq_some'] at happ
            obtain ⟨b0, hb0, rfl⟩ := happ
            have hhead := buildChain_head digest fuel rest' [b0] (b :: rest) h
              (by simp)
            simp only [List.head?] at hhead
            have hb : b = b0 := by
              have := hhead
              simp at this
              exact this
            rw [hb]
            exact (createBlock_good digest _ ts dat fuel b0 hb0).2.1

/-- A concrete injective stand-in for the digest: a forced "00" prefix (so the
proof-of-work succeeds at nonce 0) followed by a readable rendering of the
inputs. -/
def demoDigest : Digest := fun prev ts dat nonce =>
  "00" ++ prev ++ "|" ++ toString ts ++ "|" ++ toString dat.points ++ "|"
    ++ toString nonce

/-- First demo payload. -/
def payloadA : BlockData :=
  { userId := "u1", action := "add_site", points := 10, context := "c1" }

/-- Second demo payload. -/
def payloadB : BlockData :=
  { userId := "u1", action := "daily_bonus", points := 25, context := "c2" }

/-- Two entries to append. -/
def demoItems : List (Nat × BlockData) := [(1, payloadA), (2, payloadB)]

/-- The chain obtained by appending `demoItems` with `demoDigest`. -/
def demoChain : List Block := (buildChain demoDigest 0 [] demoItems).getD []

/-- Fallback block for total indexing. -/
def blockDefault : Block :=
  { timestamp := 0, data := payloadA, previousHash := "", nonce := 0, hash := "" }

/-- The first block of `demoChain`. -/
def demoBlock1 : Block := (demoChain[0]?).getD blockDefault

/-- The second block of `demoChain`. -/
def demoBlock2 : Block := (demoChain[1]?).getD blockDefault

/-- Witness for C7: the concrete two-entry chain verifies as valid, and
mutating the second entry's points to 999 makes verification report index 1. -/
theorem c7_verifyChain_witness :
    verifyChain demoDigest demoChain = .valid ∧
    verifyChain demoDigest (demoChain.set 1 (setPoints demoBlock2 999))
      = .tampered 1 := by
  have h := c7_verifyChain_roundtrip demoDigest 0 demoItems demoChain rfl
  exact ⟨h.1, h.2 1 demoBlock2 999 rfl (by decide)⟩

/-- Witness for C8: the first demo block stores the recomputed digest as its
hash, passes the proof-of-work test, and carries the genesis `previousHash`. -/
theorem c8_pow_witness :
    demoBlock1.hash = calculateHash demoDigest demoBlock1.previousHash
      demoBlock1.timestamp demoBlock1.data demoBlock1.nonce ∧
    demoBlock1.hash.take difficulty = powTarget ∧
    demoBlock1.previousHash = "0" := by
  have h := c8_pow_postcondition demoDigest
  have h1 := h.1 "0" 1 payloadA 0 demoBlock1 rfl
  exact ⟨h1.1, h1.2.1, h.2 0 demoItems demoBlock1 [demoBlock2] rfl⟩

/-- `containsSub` decides substring containment. -/
theorem containsSub_iff (pat : List Char) :
    ∀ l, containsSub pat l = true ↔ pat <:+: l := by
  intro l
  induction l with
  | nil =>
      simp [containsSub, List.isEmpty_iff, List.infix_nil]
  | cons c t ih =>
      simp [containsSub, Bool.or_eq_true, ih, List.infix_cons_iff,
        List.isPrefixOf_iff_prefix]

/-- A string whose character list is empty is the empty string. -/
theorem toList_eq_nil {s : String} (h : s.toList = []) : s = "" := by
  cases s with
  | mk data => cases data with
    | nil => rfl
    | cons c t => simp [String.toList] at h

/-- C10 (amended): with no active session every url is unblocked regardless of
the stored site list; with an active session a url is blocked exactly when its
hostname (leading `www.` stripped) contains some snapshot site as a substring;
and an unparsable url (hostname `""`) is unblocked provided no snapshot site is
the empty string. -/
theorem c10_getBlockingStatus_spec (st : LocalState) (hostname? : Option String)
    (now : Nat) :
    (st.activeSession = none → (getBlockingStatus st hostname? now).blocked = false) ∧
    (∀ s, st.activeSession = some s →
      ((getBlockingStatus st hostname? now).blocked = true ↔
        ∃ site ∈ s.blockedSites, site.toList <:+: (extractDomain hostname?).toList)) ∧
    (∀ s, st.activeSession = some s → hostname? = none →
      (∀ site ∈ s.blockedSites, site ≠ "") →
      (getBlockingStatus st hostname? now).blocked = false) := by
  refine ⟨?_, ?_, ?_⟩
  · intro h
    simp [getBlockingStatus, h]
  · intro s hs
    simp [getBlockingStatus, hs, jsIncludes, List.any_eq_true, containsSub_iff]
  · intro s hs hn hne
    subst hn
    simp only [getBlockingStatus, hs, extractDomain, List.any_eq_false,
      jsIncludes]
    intro site hsite
    rw [Bool.not_eq_true, ← Bool.not_eq_true, containsSub_iff]
    intro hcontra
    have : site.toList = [] := List.infix_nil.mp (by simpa using hcontra)
    exact hne site hsite (toList_eq_nil this)

/-- Witness for C10: with `overdueSession` active (snapshot `["example.com"]`),
the hostname `notexample.com` is reported blocked, since it contains
`example.com` as a substring. -/
theorem c10_blocking_witness :
    (getBlockingStatus overdueState (some "notexample.com") 0).blocked = true := by
  have h := (c10_getBlockingStatus_spec overdueState (some "notexample.com") 0).2.1
    overdueSession rfl
  exact h.mpr ⟨"example.com", by decide, ⟨['n', 'o', 't'], [], by decide⟩⟩

/-- A session whose snapshot contains the empty string. -/
def emptySiteSession : Session :=
  { startTime := 0
    endTime := 86400000
    duration := 1
    blockedSites := [""]
    emergencyAttempts := 0
    lastDailyBonus := 0 }

/-- `emptySiteSession` active on the fresh demo state. -/
def emptySiteState : LocalState :=
  { demoState with activeSession := some emptySiteSession }

/-- Counterexample for C10 as stated: with an active session whose snapshot
contains the empty string, an unparsable url (hostname `""`) IS reported
blocked — `"".includes("")` is true — so "never blocked" fails. -/
theorem c10_unparsable_counterexample :
    (getBlockingStatus emptySiteState none 0).blocked = true := by decide

end NoCorn
